import Mathlib

/-!
Shallow embedding of the `log-reroute` crate (src/lib.rs): a logging proxy
`Reroute` holding a swappable sink, the `Dummy` no-op sink, and the global
registration functions.  Sinks are modelled as values carrying an identity
(the `Arc` allocation) plus their behaviour; proxy operations return the
trace of calls they forward to sinks.
-/

namespace LogReroute

/-- Log metadata, abstracted (the proxy never inspects it). -/
abbrev Metadata := Nat

/-- A log record, abstracted (the proxy never inspects it). -/
abbrev LogRecord := Nat

/-- A sink (`Arc<Box<dyn Log>>`): an identity `sid` (the allocation) together
with its behaviour — `enabledFn` is its `enabled` implementation, `logOut r`
the observable output its `log` produces on record `r`, and `flushOut` the
observable output its `flush` produces. -/
structure Sink where
  sid : Nat
  enabledFn : Metadata → Bool
  logOut : LogRecord → List Nat
  flushOut : List Nat

/-- `Dummy` (src/lib.rs lines 50-58): `enabled` is always `false`, `log` and
`flush` are no-ops (produce no output).  `sid` is the fresh allocation id. -/
def mkDummy (sid : Nat) : Sink :=
  { sid := sid, enabledFn := fun _ => false, logOut := fun _ => [], flushOut := [] }

/-- A call forwarded to a sink. -/
inductive Call where
  | enabledC (s : Sink) (m : Metadata)
  | logC (s : Sink) (rec : LogRecord)
  | flushC (s : Sink)

/-- Observable output a single forwarded call produces, per the sink's own
behaviour. -/
def Call.output : Call → List Nat
  | .enabledC _ _ => []
  | .logC s rec => s.logOut rec
  | .flushC s => s.flushOut

/-- Observable output of a trace of forwarded calls. -/
def callsOutput (cs : List Call) : List Nat :=
  (cs.map Call.output).flatten

/-- Whether a call is a `flush` invocation on the sink with identity `sid`. -/
def Call.isFlushOf (c : Call) (sid : Nat) : Bool :=
  match c with
  | .flushC s => s.sid == sid
  | _ => false

/-- Number of `flush` invocations on the sink with identity `sid` in a trace. -/
def flushCount (cs : List Call) (sid : Nat) : Nat :=
  (cs.filter (fun c => c.isFlushOf sid)).length

/-- The proxy (src/lib.rs lines 67-69): holds the current target sink
(the contents of the `ArcSwap` slot). -/
structure Reroute where
  inner : Sink

/-- `impl Default for Reroute` (lines 142-149): the slot starts out holding a
freshly allocated `Dummy`; `dummyId` is that allocation's identity. -/
def Reroute.default (dummyId : Nat) : Reroute :=
  ⟨mkDummy dummyId⟩

/-- `Reroute::new` (lines 76-78): delegates to `Default::default()`. -/
def Reroute.new (dummyId : Nat) : Reroute :=
  Reroute.default dummyId

/-- `Reroute::reroute_arc` (lines 99-102): swap the slot to the new sink,
then invoke `flush` on the old sink.  Returns the new proxy state and the
trace of calls made during the operation (so the single flush of the old
sink happens before the operation returns). -/
def Reroute.reroute_arc (r : Reroute) (log : Sink) : Reroute × List Call :=
  (⟨log⟩, [Call.flushC r.inner])

/-- `Reroute::reroute_boxed` (lines 88-90): wraps the box into a fresh `Arc`
and delegates to `reroute_arc` (the wrapping does not change the sink value). -/
def Reroute.reroute_boxed (r : Reroute) (log : Sink) : Reroute × List Call :=
  r.reroute_arc log

/-- `Reroute::reroute` (lines 107-109): boxes the logger and delegates to
`reroute_boxed`. -/
def Reroute.reroute (r : Reroute) (log : Sink) : Reroute × List Call :=
  r.reroute_boxed log

/-- `Reroute::clear` (lines 114-116): `self.reroute(Dummy)`, allocating a
fresh `Dummy` instance with identity `freshId`. -/
def Reroute.clear (r : Reroute) (freshId : Nat) : Reroute × List Call :=
  r.reroute (mkDummy freshId)

/-- `Reroute::get` (lines 125-127): `self.inner.load_full()` — a snapshot of
the current target. -/
def Reroute.get (r : Reroute) : Sink :=
  r.inner

/-- `impl Log for Reroute`, `enabled` (lines 131-133): load the current sink
once and forward the call, returning the sink's answer. -/
def Reroute.enabled (r : Reroute) (m : Metadata) : Bool × List Call :=
  (r.inner.enabledFn m, [Call.enabledC r.inner m])

/-- `impl Log for Reroute`, `log` (lines 134-136): load the current sink once
and forward the call. -/
def Reroute.log (r : Reroute) (rec : LogRecord) : List Call :=
  [Call.logC r.inner rec]

/-- `impl Log for Reroute`, `flush` (lines 137-139): load the current sink
once and forward the call. -/
def Reroute.flush (r : Reroute) : List Call :=
  [Call.flushC r.inner]

/-- Trace of forwarding a list of records through `Reroute::log`
(`log` takes `&self`: the proxy state is unchanged by logging). -/
def Reroute.logMany (r : Reroute) (recs : List LogRecord) : List Call :=
  (recs.map (fun rec => r.log rec)).flatten

/-- Directly invoking `flush` on a sink handle (an `Arc<Box<dyn Log>>` held by
the caller): the call made and the output produced. -/
def Sink.flushCall (s : Sink) : List Call × List Nat :=
  ([Call.flushC s], s.flushOut)

/-! ### Micro-step view of `reroute_arc`

`reroute_arc` is two sequential statements: `let old = self.inner.swap(log);`
then `old.flush();`.  The step list makes the order explicit. -/

/-- One primitive step inside `Reroute::reroute_arc`. -/
inductive MicroStep where
  | swapStep (old new : Sink)
  | flushStep (s : Sink)

/-- The exact sequence of steps `reroute_arc` performs (lines 99-102): the
atomic swap installing the new sink first, then the flush of the old one. -/
def Reroute.reroute_arc_steps (r : Reroute) (log : Sink) : List MicroStep :=
  [MicroStep.swapStep r.inner log, MicroStep.flushStep r.inner]

/-- Effect of one micro-step on the proxy state: the swap installs the new
sink; flushing the old handle does not touch the slot. -/
def applyStep (r : Reroute) : MicroStep → Reroute
  | .swapStep _ new => ⟨new⟩
  | .flushStep _ => r

/-- Proxy state after running a list of micro-steps. -/
def runSteps (r : Reroute) (steps : List MicroStep) : Reroute :=
  steps.foldl applyStep r

/-- Whether a micro-step is a flush invocation. -/
def MicroStep.isFlush : MicroStep → Bool
  | .flushStep _ => true
  | _ => false

/-! ### Reference-count view of sink handles

`Arc` reference counts, by sink identity.  `load_full` (in `get`) clones the
`Arc`, incrementing the count; `reroute_arc` drops the old `Arc` it swapped
out after flushing it, decrementing the count.  A sink stays allocated while
its count is positive. -/

/-- Reference counts of sink allocations, indexed by sink identity. -/
structure RcState where
  rc : Nat → Nat

/-- Cloning a handle: increment the count of `sid`. -/
def RcState.incr (h : RcState) (sid : Nat) : RcState :=
  ⟨fun i => if i = sid then h.rc i + 1 else h.rc i⟩

/-- Dropping a handle: decrement the count of `sid`. -/
def RcState.decr (h : RcState) (sid : Nat) : RcState :=
  ⟨fun i => if i = sid then h.rc i - 1 else h.rc i⟩

/-- A sink is alive (usable) while some handle still holds it. -/
def RcState.alive (h : RcState) (sid : Nat) : Prop :=
  0 < h.rc sid

/-- `Reroute::get` with reference counting: `load_full` returns a fresh clone
of the current handle, incrementing its count. -/
def Reroute.getH (r : Reroute) (h : RcState) : Sink × RcState :=
  (r.inner, h.incr r.inner.sid)

/-- `Reroute::reroute_arc` with reference counting: ownership of the caller's
handle to `log` moves into the slot (no count change), the swapped-out handle
is flushed and then dropped (count of the old sink decremented). -/
def Reroute.reroute_arcH (r : Reroute) (h : RcState) (log : Sink) :
    Reroute × RcState × List Call :=
  (⟨log⟩, h.decr r.inner.sid, [Call.flushC r.inner])

/-! ### Observational equivalence of proxies -/

/-- Two sinks are observationally equal when they answer `enabled` alike and
produce the same output on `log` and `flush` (identity of the allocation is
not observable behaviour). -/
def Sink.obsEq (a b : Sink) : Prop :=
  (∀ m, a.enabledFn m = b.enabledFn m) ∧
  (∀ rec, a.logOut rec = b.logOut rec) ∧
  a.flushOut = b.flushOut

/-- Two proxies are observationally equal when their current targets are. -/
def Reroute.obsEq (a b : Reroute) : Prop :=
  a.inner.obsEq b.inner

/-! ### The global registration surface -/

/-- Error returned by the `log` facade when a logger is already set. -/
inductive SetLoggerError where
  | alreadySet

/-- Modelled from the spec: the external `log` crate's facade state — it can
hold at most one registered destination for the whole process (`src/lib.rs`
only calls into it; the facade itself is not in this repository).  `dest` is
the identity of the registered destination, if any. -/
structure Facade where
  dest : Option Nat

/-- Modelled from the spec: `log::set_logger` — registers the destination if
none is set, otherwise fails with `SetLoggerError` and leaves the already
registered destination untouched. -/
def Facade.set_logger (f : Facade) (l : Nat) : Facade × Except SetLoggerError Unit :=
  match f.dest with
  | none => (⟨some l⟩, Except.ok ())
  | some d => (⟨some d⟩, Except.error SetLoggerError.alreadySet)

/-- Identity of the `REROUTE` static as a registered destination. -/
def rerouteAddr : Nat := 0

/-- Process-wide state: the facade plus the `REROUTE` singleton
(lines 151-158). -/
structure GlobalState where
  facade : Facade
  REROUTE : Reroute

/-- `init` (lines 165-167): `log::set_logger(&*REROUTE)` — registers the
singleton with the facade; touches nothing else. -/
def init (g : GlobalState) : GlobalState × Except SetLoggerError Unit :=
  let p := g.facade.set_logger rerouteAddr
  ({ g with facade := p.1 }, p.2)

/-- Free function `reroute` (lines 172-174): `REROUTE.reroute(log)`. -/
def reroute_global (g : GlobalState) (log : Sink) : GlobalState × List Call :=
  let p := g.REROUTE.reroute log
  ({ g with REROUTE := p.1 }, p.2)

/-- Free function `reroute_boxed` (lines 177-179): `REROUTE.reroute_boxed(log)`. -/
def reroute_boxed_global (g : GlobalState) (log : Sink) : GlobalState × List Call :=
  let p := g.REROUTE.reroute_boxed log
  ({ g with REROUTE := p.1 }, p.2)

/-- The `pub fn` items `src/lib.rs` exposes at module level (lines 165, 172,
177); the `pub static REROUTE` (line 158) is a value, not a function, and no
free function wraps `reroute_arc`, `clear` or `get`. -/
def crateFreeFunctions : List String :=
  ["init", "reroute", "reroute_boxed"]

/-! ### Shared helper lemmas -/

/-- Forwarded log calls contain no flush invocation. -/
theorem flushCount_logMany (r : Reroute) (recs : List LogRecord) (sid : Nat) :
    flushCount (r.logMany recs) sid = 0 := by
  induction recs with
  | nil => rfl
  | cons a as ih =>
      simpa [Reroute.logMany, Reroute.log, flushCount, Call.isFlushOf,
        List.filter] using ih

/-! ### Claims -/

/-- Claim C1: when the proxy's current target is `s1`, every reroute variant
(`reroute`, `reroute_boxed`, `reroute_arc`) with a new sink `s2` invokes
`flush` on `s1` exactly once within the operation (so before it returns) and
never on `s2`, regardless of how many log calls were previously forwarded to
`s1` (prior forwarding neither changes the proxy state nor contributes any
flush). -/
theorem c1_flush_on_replace (r : Reroute) (s1 s2 : Sink) (recs : List LogRecord)
    (hcur : r.inner = s1) (hne : s1.sid ≠ s2.sid) :
    flushCount (r.logMany recs) s1.sid = 0 ∧
    flushCount (r.reroute_arc s2).2 s1.sid = 1 ∧
    flushCount (r.reroute_arc s2).2 s2.sid = 0 ∧
    flushCount (r.reroute_boxed s2).2 s1.sid = 1 ∧
    flushCount (r.reroute_boxed s2).2 s2.sid = 0 ∧
    flushCount (r.reroute s2).2 s1.sid = 1 ∧
    flushCount (r.reroute s2).2 s2.sid = 0 := by
  subst hcur
  have hb : (r.inner.sid == s2.sid) = false := by
    simpa using hne
  refine ⟨flushCount_logMany r recs _, ?_⟩
  simp [Reroute.reroute, Reroute.reroute_boxed, Reroute.reroute_arc,
    flushCount, Call.isFlushOf, List.filter, hb]

/-- Witness for C1 at a concrete proxy, pair of distinct sinks and prior log
trace. -/
theorem c1_flush_on_replace_witness :
    flushCount ((Reroute.mk (mkDummy 0)).logMany [5, 6]) (mkDummy 0).sid = 0 ∧
    flushCount ((Reroute.mk (mkDummy 0)).reroute_arc (mkDummy 1)).2 (mkDummy 0).sid = 1 ∧
    flushCount ((Reroute.mk (mkDummy 0)).reroute_arc (mkDummy 1)).2 (mkDummy 1).sid = 0 ∧
    flushCount ((Reroute.mk (mkDummy 0)).reroute_boxed (mkDummy 1)).2 (mkDummy 0).sid = 1 ∧
    flushCount ((Reroute.mk (mkDummy 0)).reroute_boxed (mkDummy 1)).2 (mkDummy 1).sid = 0 ∧
    flushCount ((Reroute.mk (mkDummy 0)).reroute (mkDummy 1)).2 (mkDummy 0).sid = 1 ∧
    flushCount ((Reroute.mk (mkDummy 0)).reroute (mkDummy 1)).2 (mkDummy 1).sid = 0 :=
  c1_flush_on_replace (Reroute.mk (mkDummy 0)) (mkDummy 0) (mkDummy 1) [5, 6]
    rfl (by decide)

/-- Claim C2: after any reroute variant installs sink `s`, each subsequent
`enabled`, `log` or `flush` on the proxy forwards that single call to `s` and
`enabled` returns `s`'s answer. -/
theorem c2_redirect_visibility (r : Reroute) (s : Sink) (m : Metadata)
    (rec : LogRecord) :
    ((r.reroute s).1.enabled m = (s.enabledFn m, [Call.enabledC s m]) ∧
      (r.reroute s).1.log rec = [Call.logC s rec] ∧
      (r.reroute s).1.flush = [Call.flushC s]) ∧
    ((r.reroute_boxed s).1.enabled m = (s.enabledFn m, [Call.enabledC s m]) ∧
      (r.reroute_boxed s).1.log rec = [Call.logC s rec] ∧
      (r.reroute_boxed s).1.flush = [Call.flushC s]) ∧
    ((r.reroute_arc s).1.enabled m = (s.enabledFn m, [Call.enabledC s m]) ∧
      (r.reroute_arc s).1.log rec = [Call.logC s rec] ∧
      (r.reroute_arc s).1.flush = [Call.flushC s]) :=
  ⟨⟨rfl, rfl, rfl⟩, ⟨rfl, rfl, rfl⟩, ⟨rfl, rfl, rfl⟩⟩

/-- Claim C3: a newly constructed proxy (`new` or default construction)
targets a fresh `Dummy`: `enabled` answers `false` on every metadata, and the
calls forwarded by `log` and `flush` produce no output. -/
theorem c3_default_safety (dummyId : Nat) (m : Metadata) (rec : LogRecord) :
    Reroute.new dummyId = Reroute.default dummyId ∧
    (Reroute.new dummyId).inner = mkDummy dummyId ∧
    ((Reroute.new dummyId).enabled m).1 = false ∧
    callsOutput ((Reroute.new dummyId).enabled m).2 = [] ∧
    callsOutput ((Reroute.new dummyId).log rec) = [] ∧
    callsOutput ((Reroute.new dummyId).flush) = [] :=
  ⟨rfl, rfl, rfl, rfl, rfl, rfl⟩

/-- Claim C5: `get` returns a snapshot of the current sink; after a later
`reroute_arc` replaces the target, the snapshot still designates the same
sink, the sink is still alive (the snapshot's clone keeps its reference count
positive), and flushing through the snapshot succeeds with that sink's own
output. -/
theorem c5_snapshot_independence (r : Reroute) (h : RcState) (s2 : Sink)
    (hlive : RcState.alive h r.inner.sid) :
    (r.getH h).1 = r.inner ∧
    ((r.reroute_arcH (r.getH h).2 s2).1).inner = s2 ∧
    RcState.alive (r.reroute_arcH (r.getH h).2 s2).2.1 ((r.getH h).1).sid ∧
    Sink.flushCall (r.getH h).1 = ([Call.flushC r.inner], r.inner.flushOut) := by
  refine ⟨rfl, rfl, ?_, rfl⟩
  simp only [Reroute.reroute_arcH, Reroute.getH, RcState.alive, RcState.incr,
    RcState.decr, if_pos rfl]
  exact hlive

/-- Witness for C5 at a concrete proxy, refcount state and replacement sink. -/
theorem c5_snapshot_independence_witness :
    ((Reroute.mk (mkDummy 0)).getH ⟨fun _ => 1⟩).1 = (Reroute.mk (mkDummy 0)).inner ∧
    (((Reroute.mk (mkDummy 0)).reroute_arcH
        ((Reroute.mk (mkDummy 0)).getH ⟨fun _ => 1⟩).2 (mkDummy 1)).1).inner = mkDummy 1 ∧
    RcState.alive ((Reroute.mk (mkDummy 0)).reroute_arcH
        ((Reroute.mk (mkDummy 0)).getH ⟨fun _ => 1⟩).2 (mkDummy 1)).2.1
      (((Reroute.mk (mkDummy 0)).getH ⟨fun _ => 1⟩).1).sid ∧
    Sink.flushCall ((Reroute.mk (mkDummy 0)).getH ⟨fun _ => 1⟩).1 =
      ([Call.flushC (mkDummy 0)], (mkDummy 0).flushOut) :=
  c5_snapshot_independence (Reroute.mk (mkDummy 0)) ⟨fun _ => 1⟩ (mkDummy 1)
    (by simp [RcState.alive])

/-- Claim C6: starting from a process state where the facade has no
destination yet, the first `init` returns `Ok`, the second returns the
already-initialized `SetLoggerError`, and the second call leaves the whole
state — installed proxy and its current target included — unchanged. -/
theorem c6_double_init (g : GlobalState) (hfresh : g.facade.dest = none) :
    (init g).2 = Except.ok () ∧
    (init (init g).1).2 = Except.error SetLoggerError.alreadySet ∧
    (init (init g).1).1 = (init g).1 ∧
    (init (init g).1).1.REROUTE = g.REROUTE := by
  obtain ⟨⟨d⟩, rr⟩ := g
  cases hfresh
  exact ⟨rfl, rfl, rfl, rfl⟩

/-- Witness for C6 at a concrete fresh process state. -/
theorem c6_double_init_witness :
    (init ⟨⟨none⟩, Reroute.default 0⟩).2 = Except.ok () ∧
    (init (init ⟨⟨none⟩, Reroute.default 0⟩).1).2 =
      Except.error SetLoggerError.alreadySet ∧
    (init (init ⟨⟨none⟩, Reroute.default 0⟩).1).1 =
      (init ⟨⟨none⟩, Reroute.default 0⟩).1 ∧
    (init (init ⟨⟨none⟩, Reroute.default 0⟩).1).1.REROUTE = Reroute.default 0 :=
  c6_double_init ⟨⟨none⟩, Reroute.default 0⟩ rfl

/-- Claim C7: `clear` is exactly `reroute` of a fresh `Dummy`; after it the
proxy's `enabled` answers `false` on every metadata and the calls forwarded
by `log` and `flush` produce no output; and clearing twice is observationally
the same as clearing once (the two `Dummy` allocations differ only in
identity). -/
theorem c7_clear_idempotent (r : Reroute) (i1 i2 : Nat) (m : Metadata)
    (rec : LogRecord) :
    r.clear i1 = r.reroute (mkDummy i1) ∧
    (((r.clear i1).1).enabled m).1 = false ∧
    callsOutput (((r.clear i1).1).log rec) = [] ∧
    callsOutput (((r.clear i1).1).flush) = [] ∧
    Reroute.obsEq (((r.clear i1).1.clear i2).1) ((r.clear i1).1) :=
  ⟨rfl, rfl, rfl, rfl, fun _ => rfl, fun _ => rfl, rfl⟩

/-- Claim C8 counterexample: the module exposes no free function delegating
`clear`, `get` (current) or `reroute_arc` (from-handle); only `init`,
`reroute` and `reroute_boxed` exist at module level. -/
theorem c8_free_functions_counterexample :
    ¬ ("clear" ∈ crateFreeFunctions) ∧
    ¬ ("get" ∈ crateFreeFunctions) ∧
    ¬ ("reroute_arc" ∈ crateFreeFunctions) := by
  decide

/-- Claim C8 (amended): the module exposes free functions `reroute` and
`reroute_boxed` (besides `init`), each purely delegating to the `REROUTE`
singleton's proxy method — same resulting proxy, same forwarded calls, the
facade untouched; `clear`, `get` and `reroute_arc` have no free-function
counterpart and are reached as methods on the public `REROUTE` static. -/
theorem c8_global_delegation (g : GlobalState) (s : Sink) :
    "reroute" ∈ crateFreeFunctions ∧
    "reroute_boxed" ∈ crateFreeFunctions ∧
    (reroute_global g s).1.REROUTE = (g.REROUTE.reroute s).1 ∧
    (reroute_global g s).2 = (g.REROUTE.reroute s).2 ∧
    (reroute_global g s).1.facade = g.facade ∧
    (reroute_boxed_global g s).1.REROUTE = (g.REROUTE.reroute_boxed s).1 ∧
    (reroute_boxed_global g s).2 = (g.REROUTE.reroute_boxed s).2 ∧
    (reroute_boxed_global g s).1.facade = g.facade :=
  ⟨by decide, by decide, rfl, rfl, rfl, rfl, rfl, rfl⟩

/-- Claim C9: inside `reroute_arc` the atomic swap installing the new sink is
the first step and the flush of the old sink comes strictly after: the step
prefix before the flush contains no flush and already leaves the proxy
targeting the new sink (which the full operation's resulting state agrees
with), so a forwarding call running concurrently with the flush can already
observe the new sink. -/
theorem c9_swap_before_flush (r : Reroute) (s2 : Sink) (m : Metadata) :
    r.reroute_arc_steps s2 =
      [MicroStep.swapStep r.inner s2, MicroStep.flushStep r.inner] ∧
    ((r.reroute_arc_steps s2).take 1).all (fun st => !st.isFlush) = true ∧
    runSteps r ((r.reroute_arc_steps s2).take 1) = ⟨s2⟩ ∧
    runSteps r (r.reroute_arc_steps s2) = (r.reroute_arc s2).1 ∧
    ((runSteps r ((r.reroute_arc_steps s2).take 1)).enabled m).1 =
      s2.enabledFn m :=
  ⟨rfl, rfl, rfl, rfl, rfl⟩

/-- Claim C10: rerouting to the handle just obtained from `get` (the sink
already installed) still invokes `flush` exactly once on that sink, and it
remains the proxy's current target afterwards. -/
theorem c10_reroute_current (r : Reroute) :
    ((r.reroute_arc r.get).1).inner = r.inner ∧
    flushCount (r.reroute_arc r.get).2 r.inner.sid = 1 := by
  refine ⟨rfl, ?_⟩
  simp [Reroute.reroute_arc, Reroute.get, flushCount, Call.isFlushOf,
    List.filter]

end LogReroute
